import Mathlib

/-!
Shallow embedding of the EmbedLog logging engine (EmbedLog.hpp / EmbedLog.cpp).

The repository ships two incompatible revisions side by side: the header
declares inline template `log` / `log_throttled` members (severity gate
applied inside `log`, after the throttle check), while the .cpp file defines
va_list-based `log` / `log_throttled` members (severity gate applied before
the throttle check).  Both revisions are embedded here: the `.cpp` versions
under their source names (`log`, `log_throttled`), the header template
versions with a `_hdr` suffix.

Machine integers are modelled as `Nat` with explicit reductions modulo
`2 ^ 32` (`uint32_t` / `unsigned int`) and `2 ^ 64` (`uint64_t` / `size_t`)
exactly where the C++ arithmetic wraps.  The variadic / printf-style message
marshaling is abstracted as a pre-composed message string, as the spec
directs ("treated abstractly as message content"); the injected collaborator
functions are modelled by passing each hook's boolean result to the
operation that invokes it, and the clock collaborator as a stream
`clock : Nat → Nat` indexed by a read counter `tick` held in the state.
-/

namespace EmbedLog

/-- `uint32_t` modulus. -/
def UINT32_MOD : Nat := 2 ^ 32

/-- `uint64_t` / `size_t` modulus. -/
def UINT64_MOD : Nat := 2 ^ 64

/-- 64-bit wrapping subtraction, as C++ computes `now - last` on `uint64_t`. -/
def usub64 (a b : Nat) : Nat :=
  (a % UINT64_MOD + UINT64_MOD - b % UINT64_MOD) % UINT64_MOD

/-- `enum LogLevel { INFO, WARNING, ERROR, DEBUG, NONE }` (EmbedLog.hpp:50). -/
inductive LogLevel
  | INFO
  | WARNING
  | ERROR
  | DEBUG
  | NONE
deriving DecidableEq

/-- The underlying integer value of each enumerator, in declaration order. -/
def LogLevel.toNat : LogLevel → Nat
  | .INFO => 0
  | .WARNING => 1
  | .ERROR => 2
  | .DEBUG => 3
  | .NONE => 4

/-- `EmbedLog::getLogLevelString` (EmbedLog.cpp:199-216).  The `default:
return "UNKNOWN";` branch is unreachable for the closed enum, which has no
out-of-range values in this embedding. -/
def getLogLevelString : LogLevel → String
  | .INFO => "INFO"
  | .WARNING => "WARNING"
  | .ERROR => "ERROR"
  | .DEBUG => "DEBUG"
  | .NONE => "NONE"

/-- The fields of `class EmbedLog` (EmbedLog.hpp:168-177), plus the clock
stream with its read counter `tick`, and counters of how often the open /
close hooks have been invoked.  `throttleMap` models
`std::unordered_map<size_t, uint64_t>` accessed only through `operator[]`,
i.e. as a total function with default value 0 (`operator[]`'s
default-inserted 0 for an absent key is indistinguishable from absence). -/
structure EmbedLogState where
  isOpen : Bool
  logLevel : LogLevel
  throttleMap : Nat → Nat
  name : String
  format : String
  clock : Nat → Nat
  tick : Nat
  openHookCalls : Nat
  closeHookCalls : Nat

/-- The constructed state (EmbedLog.cpp:40-53 / EmbedLog.hpp:79-84):
`isOpen` starts `false`, the throttle map is empty (every key reads as 0).
The .cpp revision's constructor takes `name` and `format`; the header
revision's takes `name` and the initial `logLevel` — both are parameters
here. -/
def initState (clock : Nat → Nat) (name format : String) (logLevel : LogLevel) :
    EmbedLogState :=
  { isOpen := false
    logLevel := logLevel
    throttleMap := fun _ => 0
    name := name
    format := format
    clock := clock
    tick := 0
    openHookCalls := 0
    closeHookCalls := 0 }

/-- `EmbedLog::open` (EmbedLog.cpp:61-66): the open hook runs only when the
log is not already open; its boolean result (`openResult`) becomes `isOpen`.
Returns the new state and the member's return value. -/
def open_ (s : EmbedLogState) (openResult : Bool) : EmbedLogState × Bool :=
  if s.isOpen = false then
    ({ s with isOpen := openResult, openHookCalls := s.openHookCalls + 1 },
     openResult)
  else
    (s, true)

/-- `EmbedLog::close` (EmbedLog.cpp:68-73): the close hook always runs;
`isOpen` becomes the negation of the hook's result. -/
def close_ (s : EmbedLogState) (closeResult : Bool) : EmbedLogState × Bool :=
  ({ s with isOpen := !closeResult, closeHookCalls := s.closeHookCalls + 1 },
   closeResult)

/-- `EmbedLog::setLogLevel` (EmbedLog.cpp:194-197). -/
def setLogLevel (s : EmbedLogState) (level : LogLevel) : EmbedLogState :=
  { s with logLevel := level }

/-- Zero-padding to a minimum width, as `std::setfill('0') << std::setw(w)`
renders an unsigned value. -/
def zeroPad (w n : Nat) : String :=
  let s := toString n
  String.mk (List.replicate (w - s.length) '0') ++ s

/-- One iteration of the format-scanning loop in `EmbedLog::print`
(EmbedLog.cpp:148-188), over the remaining characters of the format string.
A `'%'` consumes the next character and substitutes the matching field; an
unknown following character is echoed as `'%'` plus that character.  A
trailing lone `'%'` indexes the string at `size()`, which in C++ reads the
terminating `'\0'`, so the default branch emits `'%'` followed by NUL. -/
def renderChars (name lvlStr msg : String)
    (days hoursOfDay minutes seconds micros : Nat) : List Char → String
  | '%' :: c :: rest =>
    (if c = 'N' then name
     else if c = 'L' then lvlStr
     else if c = 'T' then msg
     else if c = 'D' then zeroPad 2 days
     else if c = 'H' then zeroPad 2 hoursOfDay
     else if c = 'M' then zeroPad 2 minutes
     else if c = 'S' then zeroPad 2 seconds
     else if c = 'U' then zeroPad 6 micros
     else "%" ++ String.singleton c)
      ++ renderChars name lvlStr msg days hoursOfDay minutes seconds micros rest
  | ['%'] => "%" ++ String.singleton (Char.ofNat 0)
  | c :: rest =>
    String.singleton c
      ++ renderChars name lvlStr msg days hoursOfDay minutes seconds micros rest
  | [] => ""

/-- `EmbedLog::print` (EmbedLog.cpp:137-192): reads the clock, splits the
microsecond count into time fields, expands the format template, appends a
newline, and hands the rendered line to the sink.  Returns the state after
the clock read together with the line passed to `printFunc`. -/
def print (s : EmbedLogState) (level : LogLevel) (message : String) :
    EmbedLogState × String :=
  let microseconds := s.clock s.tick % UINT64_MOD
  let totalSeconds := microseconds / 1000000
  let remainingMicroseconds := microseconds % 1000000
  let hours := totalSeconds / 3600
  let minutes := totalSeconds % 3600 / 60
  let seconds := totalSeconds % 60
  ({ s with tick := s.tick + 1 },
   renderChars s.name (getLogLevelString level) message
       (hours / 24) (hours % 24) minutes seconds remainingMicroseconds
       s.format.data
     ++ "\n")

/-- `EmbedLog::log` (.cpp revision, EmbedLog.cpp:75-101): drops silently when
not open or when `level < logLevel`; otherwise renders and emits one line.
The vsnprintf marshaling of the variadic arguments is abstracted as the
pre-composed `message`.  The second component lists the lines handed to the
sink by this call. -/
def log (s : EmbedLogState) (level : LogLevel) (message : String) :
    EmbedLogState × List String :=
  if s.isOpen = false then (s, [])
  else if level.toNat < s.logLevel.toNat then (s, [])
  else
    let p := print s level message
    (p.1, [p.2])

/-- `EmbedLog::log` (header template revision, EmbedLog.hpp:125-139): same
gating, but the concatenated message gets a `"\n"` appended before `print`.
The stream concatenation of the variadic arguments is abstracted as the
pre-composed `message`. -/
def log_hdr (s : EmbedLogState) (level : LogLevel) (message : String) :
    EmbedLogState × List String :=
  if s.isOpen = false then (s, [])
  else if s.logLevel.toNat ≤ level.toNat then
    let p := print s level (message ++ "\n")
    (p.1, [p.2])
  else (s, [])

/-- `EmbedLog::log_throttled` (.cpp revision, EmbedLog.cpp:103-135): after
the open and severity gates, reads the clock once for `now`, looks the key
up in the throttle map (absent reads as 0), and proceeds only when the
64-bit wrapping difference `now - last` exceeds `throttle_ms * 1000`
computed in `unsigned int` arithmetic, i.e. reduced modulo `2 ^ 32`.  On
proceeding it renders, emits, and stores `now` under the key. -/
def log_throttled (s : EmbedLogState) (throttle_id : Nat) (throttle_ms : Nat)
    (level : LogLevel) (message : String) : EmbedLogState × List String :=
  if s.isOpen = false then (s, [])
  else if level.toNat < s.logLevel.toNat then (s, [])
  else
    let now := s.clock s.tick % UINT64_MOD
    let s1 := { s with tick := s.tick + 1 }
    let last := s.throttleMap throttle_id
    if usub64 now last > throttle_ms * 1000 % UINT32_MOD then
      let p := print s1 level message
      ({ p.1 with
          throttleMap := fun k => if k = throttle_id then now else s.throttleMap k },
       [p.2])
    else (s1, [])

/-- `EmbedLog::log_throttled` (header template revision,
EmbedLog.hpp:153-166): checks only the open gate, reads the clock, and on a
passed throttle check calls `log` (which applies the severity gate) and then
unconditionally stores `now` under the key — even when `log` dropped the
message. -/
def log_throttled_hdr (s : EmbedLogState) (throttle_id : Nat)
    (level : LogLevel) (throttle_ms : Nat) (message : String) :
    EmbedLogState × List String :=
  if s.isOpen = false then (s, [])
  else
    let now := s.clock s.tick % UINT64_MOD
    let s1 := { s with tick := s.tick + 1 }
    let last := s.throttleMap throttle_id
    if usub64 now last > throttle_ms * 1000 % UINT32_MOD then
      let p := log_hdr s1 level message
      ({ p.1 with
          throttleMap := fun k => if k = throttle_id then now else s.throttleMap k },
       p.2)
    else (s1, [])

/-- `unique_id` (EmbedLog.cpp:36-38):
`std::hash<std::string>{}(file + std::to_string(line))`, parameterised by
the implementation-defined string hash `h`; the `size_t` result is 64-bit. -/
def unique_id (h : String → Nat) (file : String) (line : Int) : Nat :=
  h (file ++ toString line) % UINT64_MOD

/-- Modelled from the spec: `std::hash<std::string>` is an
implementation-defined "stable string hash"; modelled as 64-bit FNV-1a over
the character codepoints, a representative stable string hash. -/
def stdStringHash (s : String) : Nat :=
  s.data.foldl (fun h c => (h ^^^ c.toNat) * 1099511628211 % UINT64_MOD)
    14695981039346656037

/-- One engine operation, carrying the boolean results of the hooks it
invokes (the collaborators are opaque injected functions). -/
inductive Op
  | opOpen (hookResult : Bool)
  | opClose (hookResult : Bool)
  | opSetLogLevel (level : LogLevel)
  | opLog (level : LogLevel) (message : String)
  | opLogThrottled (throttle_id throttle_ms : Nat) (level : LogLevel)
      (message : String)

/-- Effect of one operation: the next state and the lines handed to the
sink during that operation (.cpp revision of `log` / `log_throttled`). -/
def step (s : EmbedLogState) : Op → EmbedLogState × List String
  | .opOpen r => ((open_ s r).1, [])
  | .opClose r => ((close_ s r).1, [])
  | .opSetLogLevel l => (setLogLevel s l, [])
  | .opLog l m => log s l m
  | .opLogThrottled id ms l m => log_throttled s id ms l m

/-- Run a sequence of operations, concatenating the emitted lines. -/
def run (s : EmbedLogState) : List Op → EmbedLogState × List String
  | [] => (s, [])
  | op :: ops =>
    let p := step s op
    let q := run p.1 ops
    (q.1, p.2 ++ q.2)

/-- The gating conditions the code checks before an operation may hand a
line to the sink: the engine is open, the severity clears the threshold,
and — for a throttled call — the 64-bit wrapping difference between the
fresh clock read and the key's stored timestamp exceeds
`throttle_ms * 1000` reduced modulo `2 ^ 32`.  Lifecycle and configuration
operations never emit. -/
def emissionGates (s : EmbedLogState) : Op → Prop
  | .opOpen _ => False
  | .opClose _ => False
  | .opSetLogLevel _ => False
  | .opLog l _ => s.isOpen = true ∧ s.logLevel.toNat ≤ l.toNat
  | .opLogThrottled id ms l _ =>
    s.isOpen = true ∧ s.logLevel.toNat ≤ l.toNat ∧
      usub64 (s.clock s.tick % UINT64_MOD) (s.throttleMap id) >
        ms * 1000 % UINT32_MOD

end EmbedLog

namespace EmbedLog

/-- C6: rendering the template `"[%H:%M:%S.%U %N %L] %T"` when the clock
returns 3725000001 microseconds, with name `"dev"`, level `ERROR`, message
body `"boom"`, produces exactly `"[01:02:05.000001 dev ERROR] boom"`
followed by the line terminator. -/
theorem C6_template_round_trip :
    (print (initState (fun _ => 3725000001) "dev" "[%H:%M:%S.%U %N %L] %T"
        .INFO) .ERROR "boom").2
      = "[01:02:05.000001 dev ERROR] boom\n" := by
  decide

/-- C10: calling `close` on a never-opened engine still invokes the
close-hook (the counter goes from 0 to 1); when that hook returns `false`
the open flag becomes `true`, after which a `log` call reaches the sink
even though `open` never succeeded. -/
theorem C10_close_unopened_can_reopen :
    ∀ (c : Nat → Nat) (n f m : String),
      (close_ (initState c n f .INFO) false).1.closeHookCalls = 1 ∧
      (close_ (initState c n f .INFO) false).1.isOpen = true ∧
      (log (close_ (initState c n f .INFO) false).1 .ERROR m).2.length = 1 :=
  fun _ _ _ _ => ⟨rfl, rfl, rfl⟩

end EmbedLog

namespace EmbedLog

/-- C2: for every pair of severities `a < b`, on an open engine whose
threshold is `b`, `log a` hands nothing to the sink and `log b` hands it
exactly one line. -/
theorem C2_threshold_filters :
    ∀ (a b : LogLevel), a.toNat < b.toNat →
    ∀ (s : EmbedLogState) (m : String), s.isOpen = true → s.logLevel = b →
      (log s a m).2 = [] ∧ (log s b m).2.length = 1 := by
  intro a b hab s m hopen hlvl
  constructor
  · simp [log, hopen, hlvl, hab]
  · simp [log, hopen, hlvl]

/-- Concrete open engine with threshold `WARNING`, for the C2 witness. -/
def stateC2 : EmbedLogState :=
  { initState (fun _ => 0) "" "" .WARNING with isOpen := true }

/-- C2 witness: instance at `a = INFO`, `b = WARNING`. -/
theorem C2_threshold_filters_witness :
    (log stateC2 .INFO "x").2 = [] ∧ (log stateC2 .WARNING "x").2.length = 1 :=
  C2_threshold_filters .INFO .WARNING (by decide) stateC2 "x" rfl rfl

/-- C5: a `log` or `log_throttled` call on an engine whose open flag is
`false` hands nothing to the sink and leaves the state untouched (silent
drop); the constructed (never-opened) state has the flag `false`, and a
`close` whose hook reports success leaves it `false`. -/
theorem C5_closed_engine_silent :
    (∀ (s : EmbedLogState) (l : LogLevel) (m : String), s.isOpen = false →
        (log s l m).2 = [] ∧ (log s l m).1 = s) ∧
    (∀ (s : EmbedLogState) (id ms : Nat) (l : LogLevel) (m : String),
        s.isOpen = false →
        (log_throttled s id ms l m).2 = [] ∧ (log_throttled s id ms l m).1 = s) ∧
    (∀ (c : Nat → Nat) (n f : String) (ll : LogLevel),
        (initState c n f ll).isOpen = false) ∧
    (∀ (s : EmbedLogState), (close_ s true).1.isOpen = false) := by
  refine ⟨?_, ?_, ?_, ?_⟩
  · intro s l m h
    simp [log, h]
  · intro s id ms l m h
    simp [log_throttled, h]
  · intro c n f ll
    rfl
  · intro s
    rfl

/-- Concrete never-opened engine, for the C5 witness. -/
def stateC5 : EmbedLogState := initState (fun _ => 7) "n" "%T" .INFO

/-- C5 witness: instance on the never-opened state at level `ERROR`. -/
theorem C5_closed_engine_silent_witness :
    (log stateC5 .ERROR "x").2 = [] ∧ (log stateC5 .ERROR "x").1 = stateC5 :=
  C5_closed_engine_silent.1 stateC5 .ERROR "x" rfl

end EmbedLog

namespace EmbedLog

/-- Concrete open engine (threshold `INFO`, clock at 1000000 µs, empty
throttle map), for the C1 counterexample. -/
def stateC1 : EmbedLogState :=
  { initState (fun _ => 1000000) "" "" .INFO with isOpen := true }

/-- C1 counterexample: with `intervalMs = 4294968`, `intervalMs * 1000`
wraps to 704 in `unsigned int` arithmetic, so a throttled call emits (the
sink receives a line) although the elapsed time since the key's last
emission, 1000000 − 0 µs, does not exceed the configured interval of
4294968 ms = 4294968000 µs — refuting the claim that emission requires the
elapsed time to exceed the configured interval. -/
theorem C1_counterexample :
    (log_throttled stateC1 1 4294968 .ERROR "x").2 ≠ [] ∧
    ¬ (1000000 - stateC1.throttleMap 1 > 4294968 * 1000) := by
  constructor
  · decide
  · decide

/-- C1 (amended): for every state and operation, a line is handed to the
sink only if, at the moment of the call, the engine is open AND the
severity clears the threshold AND, for throttled calls, the 64-bit wrapping
difference between the fresh clock read and the key's stored timestamp
exceeds `intervalMs * 1000` reduced modulo `2 ^ 32` (equal to the
configured interval in microseconds exactly when `intervalMs ≤ 4294967`).
The second conjunct states the same necessity for the header template
revision of `log_throttled`. -/
theorem C1_emission_gating :
    (∀ (s : EmbedLogState) (op : Op), (step s op).2 ≠ [] → emissionGates s op) ∧
    (∀ (s : EmbedLogState) (id : Nat) (l : LogLevel) (ms : Nat) (m : String),
        (log_throttled_hdr s id l ms m).2 ≠ [] →
          s.isOpen = true ∧ s.logLevel.toNat ≤ l.toNat ∧
            usub64 (s.clock s.tick % UINT64_MOD) (s.throttleMap id) >
              ms * 1000 % UINT32_MOD) := by
  constructor
  · intro s op h
    cases op with
    | opOpen r => simp [step] at h
    | opClose r => simp [step] at h
    | opSetLogLevel l => simp [step] at h
    | opLog l m =>
      cases hb : s.isOpen with
      | false => simp [step, log, hb] at h
      | true =>
        by_cases hlt : l.toNat < s.logLevel.toNat
        · simp [step, log, hb, hlt] at h
        · exact ⟨hb, by omega⟩
    | opLogThrottled id ms l m =>
      cases hb : s.isOpen with
      | false => simp [step, log_throttled, hb] at h
      | true =>
        by_cases hlt : l.toNat < s.logLevel.toNat
        · simp [step, log_throttled, hb, hlt] at h
        · by_cases hgt : usub64 (s.clock s.tick % UINT64_MOD) (s.throttleMap id) >
              ms * 1000 % UINT32_MOD
          · exact ⟨hb, by omega, hgt⟩
          · simp [step, log_throttled, hb, hlt, hgt] at h
  · intro s id l ms m h
    cases hb : s.isOpen with
    | false => simp [log_throttled_hdr, hb] at h
    | true =>
      by_cases hgt : usub64 (s.clock s.tick % UINT64_MOD) (s.throttleMap id) >
          ms * 1000 % UINT32_MOD
      · by_cases hle : s.logLevel.toNat ≤ l.toNat
        · exact ⟨rfl, hle, hgt⟩
        · simp [log_throttled_hdr, log_hdr, hb, hgt, hle] at h
      · simp [log_throttled_hdr, hb, hgt] at h

/-- Concrete open engine for the C1 witness. -/
def stateC1w : EmbedLogState :=
  { initState (fun _ => 99) "" "" .INFO with isOpen := true }

/-- C1 witness: an emitting `log WARNING` call on a concrete open engine
satisfies the gating conditions. -/
theorem C1_emission_gating_witness :
    emissionGates stateC1w (.opLog .WARNING "w") :=
  C1_emission_gating.1 stateC1w (.opLog .WARNING "w") (by decide)

end EmbedLog

namespace EmbedLog

/-- Concrete open engine with threshold `ERROR` (clock at 5000000 µs), for
the C3 counterexample. -/
def stateC3 : EmbedLogState :=
  { initState (fun _ => 5000000) "" "" .ERROR with isOpen := true }

/-- C3 counterexample: in the header template revision of `log_throttled`,
a call that passes the interval check but is dropped by the severity gate
(level `INFO` against threshold `ERROR`) emits nothing, yet refreshes the
key's stored timestamp from 0 to the current clock value 5000000 — refuting
the claim that a call dropped for any reason leaves the table unchanged. -/
theorem C3_counterexample :
    (log_throttled_hdr stateC3 9 .INFO 1000 "x").2 = [] ∧
    (log_throttled_hdr stateC3 9 .INFO 1000 "x").1.throttleMap 9 = 5000000 ∧
    stateC3.throttleMap 9 = 0 := by
  refine ⟨by decide, by decide, rfl⟩

/-- C3 (amended): in the .cpp revision of `log_throttled` (severity gate
before the interval check), a call that emits nothing leaves the throttle
map unchanged at every key — the stored timestamp is refreshed only on
actual emission.  In the header template revision, a call that passes the
open and interval checks but fails the severity gate emits nothing and
still overwrites the key's timestamp with the fresh clock read. -/
theorem C3_reset_policy :
    (∀ (s : EmbedLogState) (id ms : Nat) (l : LogLevel) (m : String),
        (log_throttled s id ms l m).2 = [] →
        ∀ k, (log_throttled s id ms l m).1.throttleMap k = s.throttleMap k) ∧
    (∀ (s : EmbedLogState) (id : Nat) (l : LogLevel) (ms : Nat) (m : String),
        s.isOpen = true → l.toNat < s.logLevel.toNat →
        usub64 (s.clock s.tick % UINT64_MOD) (s.throttleMap id) >
            ms * 1000 % UINT32_MOD →
        (log_throttled_hdr s id l ms m).2 = [] ∧
        (log_throttled_hdr s id l ms m).1.throttleMap id
          = s.clock s.tick % UINT64_MOD) := by
  constructor
  · intro s id ms l m h k
    cases hb : s.isOpen with
    | false => simp [log_throttled, hb]
    | true =>
      by_cases hlt : l.toNat < s.logLevel.toNat
      · simp [log_throttled, hb, hlt]
      · by_cases hgt : usub64 (s.clock s.tick % UINT64_MOD) (s.throttleMap id) >
            ms * 1000 % UINT32_MOD
        · simp [log_throttled, hb, hlt, hgt] at h
        · simp [log_throttled, hb, hlt, hgt]
  · intro s id l ms m hb hlt hgt
    constructor
    · simp [log_throttled_hdr, log_hdr, hb, hgt, hlt, Nat.not_le.mpr hlt]
    · simp [log_throttled_hdr, log_hdr, hb, hgt, Nat.not_le.mpr hlt]

/-- Concrete open engine with threshold `DEBUG`, for the C3 witness: a
level-suppressed .cpp-revision call. -/
def stateC3w : EmbedLogState :=
  { initState (fun _ => 0) "" "" .DEBUG with isOpen := true }

/-- C3 witness: a suppressed .cpp-revision call leaves the key's timestamp
unchanged, while the header-revision instance from the counterexample state
emits nothing and stores the clock read. -/
theorem C3_reset_policy_witness :
    (log_throttled stateC3w 4 1000 .INFO "q").1.throttleMap 4
        = stateC3w.throttleMap 4 ∧
    (log_throttled_hdr stateC3 9 .INFO 1000 "x").2 = [] ∧
    (log_throttled_hdr stateC3 9 .INFO 1000 "x").1.throttleMap 9
        = stateC3.clock stateC3.tick % UINT64_MOD :=
  ⟨C3_reset_policy.1 stateC3w 4 1000 .INFO "q" (by decide) 4,
   C3_reset_policy.2 stateC3 9 .INFO 1000 "x" rfl (by decide) (by decide)⟩

/-- Concrete open engine (clock at 2000000 µs), for the C4 counterexample. -/
def stateC4 : EmbedLogState :=
  { initState (fun _ => 2000000) "" "" .INFO with isOpen := true }

/-- C4 counterexample: with `intervalMs = 4294969`, the comparison is not
carried out in exact microsecond arithmetic: `4294969 * 1000` wraps to 1704
in `unsigned int` arithmetic, so the call emits although
`current − last = 2000000` does not exceed `intervalMs × 1000 =
4294969000`. -/
theorem C4_counterexample :
    (log_throttled stateC4 2 4294969 .ERROR "y").2 ≠ [] ∧
    ¬ (2000000 - stateC4.throttleMap 2 > 4294969 * 1000) := by
  refine ⟨by decide, by decide⟩

/-- C4 (amended): a `log_throttled` call that passes the open and severity
gates reads the clock once (at the current read index) for the gate,
treats an absent key as last-emission time 0 (the constructed map is 0
everywhere), and emits exactly when the 64-bit wrapping difference
`current − last` exceeds `intervalMs × 1000` reduced modulo `2 ^ 32` — the
comparison is exact microsecond arithmetic only for
`intervalMs ≤ 4294967`. -/
theorem C4_gate_modular :
    (∀ (s : EmbedLogState) (id ms : Nat) (l : LogLevel) (m : String),
        s.isOpen = true → s.logLevel.toNat ≤ l.toNat →
        ((log_throttled s id ms l m).2 ≠ [] ↔
          usub64 (s.clock s.tick % UINT64_MOD) (s.throttleMap id) >
            ms * 1000 % UINT32_MOD)) ∧
    (∀ (c : Nat → Nat) (n f : String) (ll : LogLevel) (id : Nat),
        (initState c n f ll).throttleMap id = 0) := by
  constructor
  · intro s id ms l m hb hle
    have hnlt : ¬ (l.toNat < s.logLevel.toNat) := by omega
    by_cases hgt : usub64 (s.clock s.tick % UINT64_MOD) (s.throttleMap id) >
        ms * 1000 % UINT32_MOD
    · simp [log_throttled, hb, hnlt, hgt]
    · simp [log_throttled, hb, hnlt, hgt]
  · intro c n f ll id
    rfl

/-- Concrete open engine for the C4 witness. -/
def stateC4w : EmbedLogState :=
  { initState (fun _ => 50000000) "" "" .INFO with isOpen := true }

/-- C4 witness: on a concrete open engine with an absent key (stored value
0) and clock 50000000 µs, a 1000 ms throttled `ERROR` call emits. -/
theorem C4_gate_modular_witness :
    (log_throttled stateC4w 3 1000 .ERROR "m").2 ≠ [] ∧
    stateC4w.throttleMap 3 = 0 :=
  ⟨(C4_gate_modular.1 stateC4w 3 1000 .ERROR "m" rfl (by decide)).mpr (by decide),
   C4_gate_modular.2 (fun _ => 50000000) "" "" .INFO 3⟩

end EmbedLog

namespace EmbedLog

/-- Concrete open engine with threshold `NONE` and format `"%L"`, for the
C7 counterexample. -/
def stateC7 : EmbedLogState :=
  { initState (fun _ => 0) "" "%L" .NONE with isOpen := true }

/-- C7 counterexample: with the threshold set to `NONE`, a `log` call whose
own level is `NONE` still reaches the sink (the gate `level < logLevel`
compares `4 < 4`, which fails to drop it) — refuting the claim that no
message of any severity level ever reaches the Sink. -/
theorem C7_counterexample :
    stateC7.logLevel = .NONE ∧ (log stateC7 .NONE "x").2 = ["NONE\n"] := by
  refine ⟨rfl, by decide⟩

/-- C7 (amended): with the threshold set to `NONE`, every `log` call whose
level is a proper message level (`INFO`, `WARNING`, `ERROR`, `DEBUG` — the
spec excludes `NONE` as a message's own level) is suppressed, in both the
.cpp and the header template revisions; only a call that passes `NONE`
itself as the message level can still reach the sink. -/
theorem C7_none_threshold :
    (∀ (s : EmbedLogState) (l : LogLevel) (m : String),
        s.logLevel = .NONE → l ≠ .NONE → (log s l m).2 = []) ∧
    (∀ (s : EmbedLogState) (l : LogLevel) (m : String),
        s.logLevel = .NONE → l ≠ .NONE → (log_hdr s l m).2 = []) := by
  constructor
  · intro s l m hlvl hne
    have hlt : l.toNat < LogLevel.toNat .NONE := by
      cases l
      · decide
      · decide
      · decide
      · decide
      · exact absurd rfl hne
    cases hb : s.isOpen with
    | false => simp [log, hb]
    | true => simp [log, hb, hlvl, hlt]
  · intro s l m hlvl hne
    have hlt : l.toNat < LogLevel.toNat .NONE := by
      cases l
      · decide
      · decide
      · decide
      · decide
      · exact absurd rfl hne
    cases hb : s.isOpen with
    | false => simp [log_hdr, hb]
    | true => simp [log_hdr, hb, hlvl, Nat.not_le.mpr hlt]

/-- C7 witness: a `DEBUG` message is suppressed under threshold `NONE`. -/
theorem C7_none_threshold_witness :
    (log stateC7 .DEBUG "x").2 = [] :=
  C7_none_threshold.1 stateC7 .DEBUG "x" rfl (by decide)

/-- Engine whose clock reads exactly 5 elapsed days, with format `"%D"`,
for the C8 counterexample. -/
def stateC8 : EmbedLogState := initState (fun _ => 432000000000) "" "%D" .INFO

/-- C8 counterexample: at 5 elapsed days the `%D` token renders as `"05"`,
not the unpadded `"5"` — the code applies `setfill('0') << setw(2)` to the
days field too (EmbedLog.cpp:165). -/
theorem C8_counterexample :
    (print stateC8 .INFO "m").2 = "05\n" ∧
    432000000000 / 1000000 / 3600 / 24 = 5 ∧
    ("05\n" : String) ≠ "5" ++ "\n" := by
  refine ⟨by decide, by decide, by decide⟩

/-- Engine parameterised by the raw microsecond clock value, with format
`"%D"`, for the amended C8 statement. -/
def dayState (u : Nat) : EmbedLogState := initState (fun _ => u) "" "%D" .INFO

/-- C8 (amended): `%D` is substituted by the elapsed days, computed as
`floor(hours / 24)` from the raw microsecond clock value, rendered
zero-padded to a minimum width of 2 digits (not unpadded). -/
theorem C8_days_token_padded :
    ∀ (u : Nat) (l : LogLevel) (m : String),
      (print (dayState u) l m).2
        = zeroPad 2 (u % UINT64_MOD / 1000000 / 3600 / 24) ++ "\n" := by
  intro u l m
  show (renderChars "" (getLogLevelString l) m
      (u % UINT64_MOD / 1000000 / 3600 / 24) _ _ _ _ ['%', 'D'] ++ "\n")
    = zeroPad 2 (u % UINT64_MOD / 1000000 / 3600 / 24) ++ "\n"
  simp [renderChars]

/-- C9 counterexample: the key is the hash of `file + std::to_string(line)`,
and the concatenation is not injective: the distinct call sites
`("a", 12)` and `("a1", 2)` concatenate to the same string `"a12"`, so they
deterministically derive the same key (here at the modelled stable string
hash) — not a hash-level coincidence. -/
theorem C9_counterexample :
    (("a", (12 : Int)) ≠ ("a1", (2 : Int))) ∧
    unique_id stdStringHash "a" 12 = unique_id stdStringHash "a1" 2 := by
  refine ⟨by decide, by decide⟩

/-- C9 (amended): key derivation is a pure deterministic function of
(file, line) — identical inputs always derive the same key — but distinct
(file, line) pairs whose `file ++ toString line` concatenations coincide
collide for EVERY choice of string hash, e.g. `("a", 12)` and `("a1", 2)`;
only pairs with distinct concatenations collide at hash-level probability. -/
theorem C9_key_derivation :
    (∀ (h : String → Nat) (f1 f2 : String) (l1 l2 : Int),
        f1 = f2 → l1 = l2 → unique_id h f1 l1 = unique_id h f2 l2) ∧
    (∀ (h : String → Nat), unique_id h "a" 12 = unique_id h "a1" 2) := by
  constructor
  · intro h f1 f2 l1 l2 hf hl
    rw [hf, hl]
  · intro h
    have hs : ("a" ++ toString (12 : Int)) = ("a1" ++ toString (2 : Int)) := by
      decide
    simp [unique_id, hs]

/-- C9 witness: determinism at a concrete call site, and the deterministic
collision at the modelled hash. -/
theorem C9_key_derivation_witness :
    unique_id stdStringHash "f.c" 3 = unique_id stdStringHash "f.c" 3 ∧
    unique_id stdStringHash "a" 12 = unique_id stdStringHash "a1" 2 :=
  ⟨C9_key_derivation.1 stdStringHash "f.c" "f.c" 3 3 rfl rfl,
   C9_key_derivation.2 stdStringHash⟩

end EmbedLog
